import Mathlib

/-!
Verification development for the opencode-dashboard control plane.

The Agent Lifecycle Manager (`src/lib/agents/lifecycle.ts`) and the Linear
webhook ingest (`src/app/api/linear/webhook/route.ts`) are embedded as pure
state-transition functions.  JavaScript `Date.now()` is passed in explicitly
as `nowMs : Nat` (milliseconds); where the source computes
`Math.floor(Date.now() / 1000)` the embedding divides by 1000.  JavaScript
truthiness on nullable strings (`value || undefined`, `if (value)` on a
string) is modelled by `blankToNone`, which collapses the empty string to
`none`.  Nullable numbers tested for truthiness (`agent.last_heartbeat ? …`)
treat `0` like `null`, and the embedding mirrors that.

The database module (`@/lib/db`) and the Alert Engine (`@/lib/alerts/engine`)
are not part of the sources; the row operations and the engine's pending-alert
index are modelled from the specification (sections 4.2 and 4.4) and carry
doc comments saying so.
-/

inductive Priority
  | high
  | medium
  | low
  deriving DecidableEq, Repr

inductive AgentStatus
  | idle
  | working
  | blocked
  | sleeping
  | offline
  deriving DecidableEq, Repr

inductive TaskStatus
  | pending
  | in_progress
  | blocked
  | completed
  | cancelled
  deriving DecidableEq, Repr

inductive BlockSource
  | explicit
  | question
  | repeated_errors
  | idle
  | resource_denied
  deriving DecidableEq, Repr

/-- The string the source interpolates for a `BlockSource` value inside
`\x5b${context.source}\x5d ${context.reason}`. -/
def BlockSource.text : BlockSource → String
  | .explicit => "explicit"
  | .question => "question"
  | .repeated_errors => "repeated_errors"
  | .idle => "idle"
  | .resource_denied => "resource_denied"

/-- JavaScript truthiness on a nullable string: `null` and `""` are falsy.
Used wherever the source writes `value || null`, `value || undefined` or
`if (value)` on a string. -/
def blankToNone (v : Option String) : Option String :=
  match v with
  | none => none
  | some str => if str == "" then none else some str

structure Agent where
  id : String
  name : String
  status : AgentStatus
  current_task_id : Option String
  last_heartbeat : Option Nat
  deriving DecidableEq, Repr

structure AgentTask where
  id : String
  agent_id : String
  linear_issue_id : Option String
  project_id : Option String
  title : String
  status : TaskStatus
  priority : Priority
  blocked_reason : Option String
  blocked_at : Option Nat
  started_at : Option Nat
  completed_at : Option Nat
  deriving DecidableEq, Repr

/-- Linear issue mirror row, restricted to the fields read by
`maybeAutoAssignIssue` and written by `linkAgentToIssue`. -/
structure LinearIssue where
  id : String
  project_id : Option String
  title : String
  priority : Int
  state_name : Option String
  state_type : Option String
  assignee_name : Option String
  agent_task_id : Option String
  deriving DecidableEq, Repr

inductive Trigger
  | blocked
  | error
  | completed
  | idle_too_long
  | stale_task
  deriving DecidableEq, Repr

structure AlertEvent where
  trigger : Trigger
  agentId : String
  taskId : String
  title : String
  priority : Priority
  reason : Option String
  projectId : Option String
  deriving DecidableEq, Repr

/-- Modelled from the spec: the Alert Engine source file is absent, so alert
rules follow section 4.4.  `priority_filter` is a list of matching priorities
(`all` is the full list, `completed-batch` matches medium and low). -/
structure AlertRule where
  id : String
  trigger : Trigger
  priority_filter : List Priority
  delay_ms : Nat
  channel_push : Bool
  channel_in_app : Bool
  enabled : Bool
  deriving DecidableEq, Repr

/-- Modelled from the spec: the default rule table of section 4.4. -/
def defaultRules : List AlertRule :=
  [ ⟨"blocked-high", .blocked, [.high], 0, true, true, true⟩,
    ⟨"blocked-medium", .blocked, [.medium], 600000, true, true, true⟩,
    ⟨"blocked-low", .blocked, [.low], 3600000, false, true, true⟩,
    ⟨"error-all", .error, [.high, .medium, .low], 0, true, true, true⟩,
    ⟨"completed-high", .completed, [.high], 0, false, true, true⟩,
    ⟨"completed-batch", .completed, [.medium, .low], 900000, false, true, true⟩,
    ⟨"idle-all", .idle_too_long, [.high, .medium, .low], 1800000, false, true, true⟩,
    ⟨"stale-all", .stale_task, [.high, .medium, .low], 7200000, true, false, true⟩ ]

/-- Modelled from the spec: an entry of the Alert Engine's index of scheduled
(delayed) deliveries, keyed by `(agentId, taskId, trigger, rule.id)`
(section 4.4, Scheduling). -/
structure PendingAlert where
  agentId : String
  taskId : String
  trigger : Trigger
  ruleId : String
  deriving DecidableEq, Repr

/-- Modelled from the spec: rule matching of section 4.4 — enabled rules whose
trigger equals the event trigger and whose priority filter covers the event
priority. -/
def ruleMatches (r : AlertRule) (ev : AlertEvent) : Bool :=
  r.enabled && r.trigger == ev.trigger && r.priority_filter.contains ev.priority

/-- Modelled from the spec: the pending-index entries `processEvent` records
for one event — one entry per matched rule with `delay_ms > 0`
(section 4.4, Scheduling).  Immediate deliveries add no entry. -/
def scheduledEntries (rules : List AlertRule) (ev : AlertEvent) : List PendingAlert :=
  (rules.filter (fun r => ruleMatches r ev && decide (0 < r.delay_ms))).map
    (fun r => ⟨ev.agentId, ev.taskId, ev.trigger, r.id⟩)

/-- Modelled from the spec: `cancelPendingAlerts(agentId, taskId?)` removes
every index entry whose key matches and returns how many were removed
(section 4.4, Cancellation).  The lifecycle manager source never calls it. -/
def cancelPendingAlerts (pending : List PendingAlert) (agentId : String)
    (taskId : Option String) : List PendingAlert × Nat :=
  let keep : PendingAlert → Bool := fun pa =>
    !(pa.agentId == agentId && (taskId.isNone || taskId == some pa.taskId))
  (pending.filter keep, pending.length - (pending.filter keep).length)

structure ErrorCounter where
  count : Nat
  windowStart : Nat
  deriving DecidableEq, Repr

structure MessageThrottle where
  lastSent : Nat
  count : Nat
  deriving DecidableEq, Repr

structure SleepSchedule where
  startHour : Nat
  endHour : Nat
  timezone : String
  enabled : Bool
  deriving DecidableEq, Repr

/-- The argument of `setSleepSchedule`: a `Partial<SleepSchedule>`.  A field is
`some` exactly when the corresponding key is present in the object (the
settings route builds it from a zod schema with optional keys, so absent
fields stay absent). -/
structure SleepSchedulePatch where
  startHour : Option Nat
  endHour : Option Nat
  timezone : Option String
  enabled : Option Bool
  deriving DecidableEq, Repr

/-- The whole observable state of the lifecycle manager: the database rows it
touches (agents, tasks, Linear issue mirror — the database module is absent
from the sources and is modelled from spec section 4.2 as typed row maps),
its process-local maps, and logs of its calls into the Alert Engine
(`alertEvents`, `pending`) and the event bus (`busEvents`, recorded as
`(type, action)` pairs). -/
structure LifecycleState where
  agents : List Agent
  tasks : List AgentTask
  issues : List LinearIssue
  errorCounters : List (String × ErrorCounter)
  messageThrottles : List (String × MessageThrottle)
  sleepSchedule : SleepSchedule
  idleTimers : List String
  pending : List PendingAlert
  alertEvents : List AlertEvent
  busEvents : List (String × String)
  deriving DecidableEq, Repr

/-- The manager's construction-time state: empty maps and the default sleep
schedule from the class initialiser. -/
def initialState : LifecycleState :=
  { agents := [], tasks := [], issues := [], errorCounters := [],
    messageThrottles := [],
    sleepSchedule := ⟨2, 6, "America/Los_Angeles", false⟩,
    idleTimers := [], pending := [], alertEvents := [], busEvents := [] }

/-- Modelled from the spec: `Store.Agents.get(id)` — lookup by primary key
(section 4.2; the database module is absent from the sources). -/
def getAgent (s : LifecycleState) (id : String) : Option Agent :=
  s.agents.find? (fun a => a.id == id)

/-- Modelled from the spec: `Store.AgentTasks.get(id)` (section 4.2). -/
def getAgentTask (s : LifecycleState) (id : String) : Option AgentTask :=
  s.tasks.find? (fun t => t.id == id)

/-- Modelled from the spec: `Store.getLinearIssue(id)` (section 4.2). -/
def getLinearIssue (s : LifecycleState) (id : String) : Option LinearIssue :=
  s.issues.find? (fun i => i.id == id)

/-- Modelled from the spec: `Store.AgentTasks.listByAgent(agentId)`
(section 4.2). -/
def getAgentTasks (s : LifecycleState) (agentId : String) : List AgentTask :=
  s.tasks.filter (fun t => t.agent_id == agentId)

/-- Modelled from the spec: `Store.Agents.update(id, fields)` applied as a row
transformer.  When the row is absent the state is unchanged (no lifecycle
claim exercises the missing-row case). -/
def updateAgentRow (s : LifecycleState) (id : String) (f : Agent → Agent) :
    LifecycleState :=
  { s with agents := s.agents.map (fun a => if a.id == id then f a else a) }

/-- Modelled from the spec: `Store.AgentTasks.update(id, fields)` as a row
transformer, identity when the row is absent. -/
def updateTaskRow (s : LifecycleState) (id : String) (f : AgentTask → AgentTask) :
    LifecycleState :=
  { s with tasks := s.tasks.map (fun t => if t.id == id then f t else t) }

/-- Modelled from the spec: `db.linkAgentToIssue(issueId, taskId)` sets the
mirror row's `agent_task_id` (section 4.7); the caller wraps it in
`try/catch`, so a missing row leaves the state unchanged. -/
def linkAgentToIssue (s : LifecycleState) (issueId taskId : String) :
    LifecycleState :=
  { s with issues := s.issues.map (fun i =>
      if i.id == issueId then { i with agent_task_id := some taskId } else i) }

/-- `Map.set` on a string-keyed map held as an association list: replace the
entry if the key is present, append otherwise. -/
def setEntry {α : Type} (l : List (String × α)) (k : String) (v : α) :
    List (String × α) :=
  match l with
  | [] => [(k, v)]
  | e :: es => if e.1 == k then (k, v) :: es else e :: setEntry es k v

/-- `Map.get` on a string-keyed association list. -/
def findEntry {α : Type} (l : List (String × α)) (k : String) : Option α :=
  (l.find? (fun e => e.1 == k)).map (fun e => e.2)

/-- `clearIdleMonitor`: `Map.delete` on the idle-timer map (plus
`clearTimeout`, which has no observable state here). -/
def clearIdleMonitor (s : LifecycleState) (agentId : String) : LifecycleState :=
  { s with idleTimers := s.idleTimers.filter (fun a => !(a == agentId)) }

/-- `startIdleMonitor`: clears any existing timer for the agent, then arms a
fresh one (the 5-minute delay itself is real time and not part of the
state). -/
def startIdleMonitor (s : LifecycleState) (agentId : String) : LifecycleState :=
  let s1 := clearIdleMonitor s agentId
  { s1 with idleTimers := s1.idleTimers ++ [agentId] }

/-- `alertEngine.processEvent(ev)` as seen by the lifecycle manager: the event
is appended to the engine's input log, and — modelled from the spec
(section 4.4) since the engine source is absent — one pending-index entry is
recorded per matched rule with a positive delay.  Deliveries, batch contents
and anti-spam are outside the modelled surface; `processEvent` never removes
pending entries (removal is only specified for `cancelPendingAlerts`). -/
def processEvent (s : LifecycleState) (ev : AlertEvent) : LifecycleState :=
  { s with alertEvents := s.alertEvents ++ [ev],
           pending := s.pending ++ scheduledEntries defaultRules ev }

/-- `eventBus.publish` restricted to the `(type, action)` pair of the
payload. -/
def publishBus (s : LifecycleState) (type action : String) : LifecycleState :=
  { s with busEvents := s.busEvents ++ [(type, action)] }

/-- `triggerSleep(agentId, reason, detail?)`: no-op unless the agent exists
and is neither sleeping nor offline; sets the agent sleeping, clears its idle
monitor and publishes `agent:status {action:"sleep"}`. -/
def triggerSleep (s : LifecycleState) (agentId reason : String)
    (detail : Option String) : LifecycleState :=
  match getAgent s agentId with
  | none => s
  | some agent =>
    if agent.status == AgentStatus.sleeping || agent.status == AgentStatus.offline then
      s
    else
      let s1 := updateAgentRow s agentId
        (fun a => { a with status := AgentStatus.sleeping })
      let s2 := clearIdleMonitor s1 agentId
      publishBus s2 "agent:status" "sleep"

/-- `triggerWake(agentId, reason)`: no-op unless the agent exists and is
sleeping; sets it idle with a fresh heartbeat, restarts the idle monitor and
publishes `agent:status {action:"wake"}`. -/
def triggerWake (s : LifecycleState) (nowMs : Nat) (agentId reason : String) :
    LifecycleState :=
  match getAgent s agentId with
  | none => s
  | some agent =>
    if agent.status == AgentStatus.sleeping then
      let s1 := updateAgentRow s agentId
        (fun a => { a with status := AgentStatus.idle,
                           last_heartbeat := some (nowMs / 1000) })
      let s2 := startIdleMonitor s1 agentId
      publishBus s2 "agent:status" "wake"
    else
      s

structure BlockContext where
  source : BlockSource
  reason : String
  taskId : String
  deriving DecidableEq, Repr

/-- `detectBlocked(agentId, context)`: no-op when the task does not exist;
otherwise marks the task blocked with reason `\x5bsource\x5d reason` and
`blocked_at`, marks the agent blocked on that task, feeds the Alert Engine a
`blocked` event built from the task as read before the update, and publishes
`agent:status {action:"blocked"}`. -/
def detectBlocked (s : LifecycleState) (nowMs : Nat) (agentId : String)
    (ctx : BlockContext) : LifecycleState :=
  let now := nowMs / 1000
  match getAgentTask s ctx.taskId with
  | none => s
  | some task =>
    let s1 := updateTaskRow s ctx.taskId (fun t =>
      { t with status := TaskStatus.blocked,
               blocked_reason := some ("[" ++ ctx.source.text ++ "] " ++ ctx.reason),
               blocked_at := some now })
    let s2 := updateAgentRow s1 agentId (fun a =>
      { a with status := AgentStatus.blocked, current_task_id := some ctx.taskId })
    let s3 := processEvent s2
      { trigger := Trigger.blocked, agentId := agentId, taskId := ctx.taskId,
        title := task.title, priority := task.priority,
        reason := some ctx.reason, projectId := blankToNone task.project_id }
    publishBus s3 "agent:status" "blocked"

/-- The reason string `recordError` builds:
`N consecutive errors in Ss` with the already-incremented count and the age of
the window in whole seconds. -/
def errorReason (count : Nat) (ageSeconds : Nat) : String :=
  toString count ++ " consecutive errors in " ++ toString ageSeconds ++ "s"

/-- `recordError(agentId, taskId) → bool`.  The counter map is keyed by the
string `agentId + ":" + taskId`.  A missing counter, or one whose window is
older than 600 000 ms, is reset to count 1 and the call returns `false`.
Otherwise the stored count is incremented; at 5 or more the manager blocks
the task and puts the agent to sleep, at 3 or more it blocks the task, and
both paths return `true`; below 3 it returns `false`. -/
def recordError (s : LifecycleState) (nowMs : Nat) (agentId taskId : String) :
    LifecycleState × Bool :=
  let key := agentId ++ ":" ++ taskId
  match findEntry s.errorCounters key with
  | none =>
    ({ s with errorCounters := setEntry s.errorCounters key ⟨1, nowMs⟩ }, false)
  | some c =>
    if 600000 < nowMs - c.windowStart then
      ({ s with errorCounters := setEntry s.errorCounters key ⟨1, nowMs⟩ }, false)
    else
      let newCount := c.count + 1
      let s1 :=
        { s with errorCounters :=
            setEntry s.errorCounters key ⟨newCount, c.windowStart⟩ }
      if 5 ≤ newCount then
        let s2 := detectBlocked s1 nowMs agentId
          ⟨BlockSource.repeated_errors,
           errorReason newCount ((nowMs - c.windowStart) / 1000), taskId⟩
        let s3 := triggerSleep s2 agentId "error_threshold"
          (some (toString newCount ++ " errors in 10 minutes"))
        (s3, true)
      else if 3 ≤ newCount then
        let s2 := detectBlocked s1 nowMs agentId
          ⟨BlockSource.repeated_errors,
           errorReason newCount ((nowMs - c.windowStart) / 1000), taskId⟩
        (s2, true)
      else
        (s1, false)

/-- `refreshHeartbeat(agentId)`: stamp `last_heartbeat` and re-arm the idle
monitor. -/
def refreshHeartbeat (s : LifecycleState) (nowMs : Nat) (agentId : String) :
    LifecycleState :=
  let s1 := updateAgentRow s agentId
    (fun a => { a with last_heartbeat := some (nowMs / 1000) })
  startIdleMonitor s1 agentId

inductive MessageType
  | push
  | in_app
  deriving DecidableEq, Repr

/-- `shouldSendMessage(agentId, type)`: `in_app` is always allowed and touches
nothing.  For `push`, a missing throttle entry or one whose last allowed send
is over 3 600 000 ms old is reset to count 1 and allowed; a count of 3 or more
denies without touching the entry; otherwise the count is incremented, the
send time recorded, and the call allowed. -/
def shouldSendMessage (s : LifecycleState) (nowMs : Nat) (agentId : String)
    (type : MessageType) : LifecycleState × Bool :=
  match type with
  | .in_app => (s, true)
  | .push =>
    match findEntry s.messageThrottles agentId with
    | none =>
      ({ s with messageThrottles :=
          setEntry s.messageThrottles agentId ⟨nowMs, 1⟩ }, true)
    | some th =>
      if 3600000 < nowMs - th.lastSent then
        ({ s with messageThrottles :=
            setEntry s.messageThrottles agentId ⟨nowMs, 1⟩ }, true)
      else if 3 ≤ th.count then
        (s, false)
      else
        ({ s with messageThrottles :=
            setEntry s.messageThrottles agentId ⟨nowMs, th.count + 1⟩ }, true)

/-- `isInSleepWindow()`: the source asks `Intl.DateTimeFormat` for the current
hour in the configured time zone; the embedding takes that hour as the
argument `currentHour`.  Disabled schedules answer `false`; otherwise the hour
is tested against `\x5bstartHour, endHour)`, with the wrap-around comparison
when `startHour < endHour` fails. -/
def isInSleepWindow (sch : SleepSchedule) (currentHour : Nat) : Bool :=
  if !sch.enabled then
    false
  else if sch.startHour < sch.endHour then
    decide (sch.startHour ≤ currentHour) && decide (currentHour < sch.endHour)
  else
    decide (sch.startHour ≤ currentHour) || decide (currentHour < sch.endHour)

/-- The object spread `{ ...this.sleepSchedule }`: a freshly constructed
record, field for field. -/
def copySleepSchedule (sch : SleepSchedule) : SleepSchedule :=
  { startHour := sch.startHour, endHour := sch.endHour,
    timezone := sch.timezone, enabled := sch.enabled }

/-- `getSleepSchedule()`: returns a spread copy of the stored schedule. -/
def getSleepSchedule (s : LifecycleState) : SleepSchedule :=
  copySleepSchedule s.sleepSchedule

/-- The merge `{ ...this.sleepSchedule, ...schedule }`: keys present in the
patch override, absent keys keep the stored value. -/
def mergeSleepSchedule (sch : SleepSchedule) (p : SleepSchedulePatch) :
    SleepSchedule :=
  { startHour := p.startHour.getD sch.startHour,
    endHour := p.endHour.getD sch.endHour,
    timezone := p.timezone.getD sch.timezone,
    enabled := p.enabled.getD sch.enabled }

/-- `setSleepSchedule(schedule)`: replaces the stored schedule by the spread
merge. -/
def setSleepSchedule (s : LifecycleState) (p : SleepSchedulePatch) :
    LifecycleState :=
  { s with sleepSchedule := mergeSleepSchedule s.sleepSchedule p }

structure TaskAssignment where
  agentId : String
  taskId : String
  linearIssueId : Option String
  projectId : Option String
  title : String
  priority : Priority
  deriving DecidableEq, Repr

/-- `assignTask(assignment)`: throws when the agent does not exist (the
source's only lifecycle throw, `Agent ... not found`); creating a task whose
id already exists surfaces the store's Conflict failure (modelled from spec
section 4.2, the database module being absent) before any mutation.
Otherwise the task is created `pending`, the agent set working on it with a
fresh heartbeat, the idle monitor armed, the Linear mirror linked when a
non-blank issue id is given, and `agent:status {action:"task_assigned"}`
published. -/
def assignTask (s : LifecycleState) (nowMs : Nat) (asg : TaskAssignment) :
    Except String (LifecycleState × AgentTask) :=
  match getAgent s asg.agentId with
  | none => Except.error ("Agent " ++ asg.agentId ++ " not found")
  | some _ =>
    if (getAgentTask s asg.taskId).isSome then
      Except.error "Conflict"
    else
      let task : AgentTask :=
        { id := asg.taskId, agent_id := asg.agentId,
          linear_issue_id := blankToNone asg.linearIssueId,
          project_id := blankToNone asg.projectId,
          title := asg.title, status := TaskStatus.pending,
          priority := asg.priority, blocked_reason := none, blocked_at := none,
          started_at := none, completed_at := none }
      let s1 := { s with tasks := s.tasks ++ [task] }
      let s2 := updateAgentRow s1 asg.agentId (fun a =>
        { a with status := AgentStatus.working, current_task_id := some task.id,
                 last_heartbeat := some (nowMs / 1000) })
      let s3 := startIdleMonitor s2 asg.agentId
      let s4 :=
        match blankToNone asg.linearIssueId with
        | some issueId => linkAgentToIssue s3 issueId task.id
        | none => s3
      Except.ok (publishBus s4 "agent:status" "task_assigned", task)

/-- `completeTask(agentId, taskId)`: no-op when the task does not exist;
otherwise the task is marked completed, the agent parked (sleeping inside the
sleep window, idle otherwise) when no pending task remains or merely detached
from the task when one does, the idle monitor cleared, a `completed` event
with the task's priority fed to the Alert Engine, and
`agent:status {action:"task_completed"}` published.  `currentHour` feeds the
sleep-window check exactly as in `isInSleepWindow`. -/
def completeTask (s : LifecycleState) (nowMs currentHour : Nat)
    (agentId taskId : String) : LifecycleState :=
  let now := nowMs / 1000
  match getAgentTask s taskId with
  | none => s
  | some task =>
    let s1 := updateTaskRow s taskId (fun t =>
      { t with status := TaskStatus.completed, completed_at := some now })
    let pendingTasks := (getAgentTasks s1 agentId).filter
      (fun t => t.status == TaskStatus.pending)
    let s2 :=
      if pendingTasks.length == 0 then
        if isInSleepWindow s1.sleepSchedule currentHour then
          triggerSleep s1 agentId "schedule"
            (some "Sleep window active, no pending tasks")
        else
          updateAgentRow s1 agentId (fun a =>
            { a with status := AgentStatus.idle, current_task_id := none })
      else
        updateAgentRow s1 agentId (fun a => { a with current_task_id := none })
    let s3 := clearIdleMonitor s2 agentId
    let s4 := processEvent s3
      { trigger := Trigger.completed, agentId := agentId, taskId := taskId,
        title := task.title, priority := task.priority, reason := none,
        projectId := blankToNone task.project_id }
    publishBus s4 "agent:status" "task_completed"

/-- The heartbeat age computed by `checkIdle`: `none` stands for the
`Number.POSITIVE_INFINITY` the source uses when `last_heartbeat` is null —
or `0`, which JavaScript truthiness also treats as absent. -/
def heartbeatAge (lastHeartbeat : Option Nat) (nowSeconds : Nat) : Option Nat :=
  match lastHeartbeat with
  | none => none
  | some hb => if hb == 0 then none else some (nowSeconds - hb)

/-- `age > bound`, where `none` is positive infinity. -/
def ageExceeds (age : Option Nat) (bound : Nat) : Bool :=
  match age with
  | none => true
  | some a => decide (bound < a)

/-- The minutes figure interpolated into the idle reason
(`Math.floor(age / 60)`, or `Infinity`). -/
def ageMinutesText (age : Option Nat) : String :=
  match age with
  | none => "Infinity"
  | some a => toString (a / 60)

/-- The idle-timer callback `checkIdle(agentId)`: no-op unless the agent
exists and is working.  With a heartbeat older than 300 s and a (truthy)
current task it raises `detectBlocked(source="idle")`; independently, with a
heartbeat older than 1800 s and at least one pending task it feeds the Alert
Engine an `idle_too_long` event for the first pending task. -/
def checkIdle (s : LifecycleState) (nowMs : Nat) (agentId : String) :
    LifecycleState :=
  match getAgent s agentId with
  | none => s
  | some agent =>
    if !(agent.status == AgentStatus.working) then
      s
    else
      let now := nowMs / 1000
      let age := heartbeatAge agent.last_heartbeat now
      let s1 :=
        match blankToNone agent.current_task_id with
        | some taskId =>
          if ageExceeds age 300 then
            detectBlocked s nowMs agentId
              ⟨BlockSource.idle,
               "Agent idle for " ++ ageMinutesText age ++
                 " minutes with in_progress task", taskId⟩
          else s
        | none => s
      let pendingTasks := (getAgentTasks s1 agentId).filter
        (fun t => t.status == TaskStatus.pending)
      if ageExceeds age 1800 && decide (0 < pendingTasks.length) then
        match pendingTasks with
        | [] => s1
        | p :: _ =>
          processEvent s1
            { trigger := Trigger.idle_too_long, agentId := agentId,
              taskId := p.id, title := p.title, priority := Priority.medium,
              reason := none, projectId := blankToNone p.project_id }
      else s1

/-- `normalizeName(value)`: `(value || '').trim().toLowerCase()`. -/
def normalizeName (value : Option String) : String :=
  ((value.getD "").trim).toLower

/-- `mapLinearPriority(priority)`: at least 3 is high, at least 2 medium,
anything below is low.  Linear priorities are whole numbers. -/
def mapLinearPriority (priority : Int) : Priority :=
  if 3 ≤ priority then Priority.high
  else if 2 ≤ priority then Priority.medium
  else Priority.low

/-- `isAutoAssignmentState(stateType, stateName)`: the normalised state type is
`started` or `in_progress`, or the normalised state name is `started`,
`in progress` or `in_progress`. -/
def isAutoAssignmentState (stateType stateName : Option String) : Bool :=
  let st := normalizeName stateType
  let sn := normalizeName stateName
  st == "started" || st == "in_progress" ||
    sn == "started" || sn == "in progress" || sn == "in_progress"

/-- `maybeAutoAssignIssue(issueId)`: returns unchanged when the issue is
missing, already linked to a (truthy) task id, not in an auto-assignment
state, without a (truthy) assignee name, or without an agent whose normalised
name matches.  Otherwise it calls `assignTask` with task id
`linear_` + issue id and the mapped priority; the call is wrapped in
`try/catch`, and `assignTask` fails only before its first mutation, so a
failure leaves the state unchanged. -/
def maybeAutoAssignIssue (s : LifecycleState) (nowMs : Nat) (issueId : String) :
    LifecycleState :=
  match getLinearIssue s issueId with
  | none => s
  | some issue =>
    if (blankToNone issue.agent_task_id).isSome then s
    else if !(isAutoAssignmentState issue.state_type issue.state_name) then s
    else
      let assignee := normalizeName issue.assignee_name
      if assignee == "" then s
      else
        match s.agents.find? (fun ag => normalizeName (some ag.name) == assignee) with
        | none => s
        | some matchedAgent =>
          match assignTask s nowMs
            { agentId := matchedAgent.id, taskId := "linear_" ++ issue.id,
              linearIssueId := some issue.id,
              projectId := blankToNone issue.project_id,
              title := issue.title,
              priority := mapLinearPriority issue.priority } with
          | Except.ok (s1, _) => s1
          | Except.error _ => s

theorem find?_map_of_pred {α : Type} (g : α → α) (p : α → Bool) (l : List α)
    (hg : ∀ x, p (g x) = p x) :
    (l.map g).find? p = (l.find? p).map g := by
  induction l with
  | nil => rfl
  | cons x l ih =>
    by_cases hx : p x = true
    · have hgx : p (g x) = true := by rw [hg]; exact hx
      rw [List.map_cons, List.find?_cons_of_pos _ hgx, List.find?_cons_of_pos _ hx]
      rfl
    · have hx' : p x = false := by simpa using hx
      have hgx : ¬ p (g x) = true := by simp [hg, hx']
      rw [List.map_cons, List.find?_cons_of_neg _ hgx,
        List.find?_cons_of_neg _ (by simp [hx']), ih]

theorem findEntry_setEntry_self {α : Type} (l : List (String × α)) (k : String)
    (v : α) : findEntry (setEntry l k v) k = some v := by
  induction l with
  | nil => simp [setEntry, findEntry]
  | cons e l ih =>
    by_cases he : (e.1 == k) = true
    · simp [setEntry, findEntry, he]
    · have he' : (e.1 == k) = false := by simpa using he
      simpa [setEntry, findEntry, he'] using ih

theorem findEntry_setEntry_other {α : Type} (l : List (String × α)) (k j : String)
    (v : α) (h : j ≠ k) : findEntry (setEntry l k v) j = findEntry l j := by
  have hkj : ¬ (k = j) := fun hk => h hk.symm
  induction l with
  | nil => simp [setEntry, findEntry, hkj]
  | cons e l ih =>
    by_cases he : (e.1 == k) = true
    · have hek : e.1 = k := by simpa using he
      simp [setEntry, findEntry, he, hek, hkj]
    · have he' : (e.1 == k) = false := by simpa using he
      by_cases hej : (e.1 == j) = true
      · simp [setEntry, findEntry, he', hej]
      · have hej' : (e.1 == j) = false := by simpa using hej
        simpa [setEntry, findEntry, he', hej'] using ih

theorem scheduledEntries_trigger (rules : List AlertRule) (ev : AlertEvent) :
    ∀ pa ∈ scheduledEntries rules ev, pa.trigger = ev.trigger := by
  intro pa hpa
  simp only [scheduledEntries, List.mem_map, List.mem_filter] at hpa
  obtain ⟨r, _, rfl⟩ := hpa
  rfl

theorem pending_filter_processEvent (s : LifecycleState) (ev : AlertEvent)
    (p : PendingAlert → Bool) (hp : ∀ pa, pa.trigger = ev.trigger → p pa = false) :
    (processEvent s ev).pending.filter p = s.pending.filter p := by
  have hnil : (scheduledEntries defaultRules ev).filter p = [] := by
    rw [List.filter_eq_nil_iff]
    intro pa hpa
    simp [hp pa (scheduledEntries_trigger defaultRules ev pa hpa)]
  simp [processEvent, List.filter_append, hnil]

/-- C1 (amended): a `recordError` call returns `true` exactly when it is the
3rd **or any later** error inside the current 10-minute window — not only the
3rd or the 5th; in particular the 4th error in a window returns `true`.  A
call that finds no counter, or a counter whose window is more than 600 000 ms
old, resets the counter to count 1 with a fresh `windowStart` and returns
`false`. -/
theorem recordError_returns_true_iff (s : LifecycleState) (nowMs : Nat)
    (agentId taskId : String) :
    ((recordError s nowMs agentId taskId).2 = true ↔
      ∃ c, findEntry s.errorCounters (agentId ++ ":" ++ taskId) = some c ∧
        nowMs - c.windowStart ≤ 600000 ∧ 2 ≤ c.count)
    ∧ (findEntry s.errorCounters (agentId ++ ":" ++ taskId) = none →
        (recordError s nowMs agentId taskId).2 = false ∧
        findEntry (recordError s nowMs agentId taskId).1.errorCounters
          (agentId ++ ":" ++ taskId) = some ⟨1, nowMs⟩)
    ∧ (∀ c, findEntry s.errorCounters (agentId ++ ":" ++ taskId) = some c →
        600000 < nowMs - c.windowStart →
        (recordError s nowMs agentId taskId).2 = false ∧
        findEntry (recordError s nowMs agentId taskId).1.errorCounters
          (agentId ++ ":" ++ taskId) = some ⟨1, nowMs⟩) := by
  rcases hfind : findEntry s.errorCounters (agentId ++ ":" ++ taskId) with _ | c
  · refine ⟨?_, ?_, ?_⟩
    · simp [recordError, hfind]
    · intro _
      exact ⟨by simp [recordError, hfind],
        by simp [recordError, hfind, findEntry_setEntry_self]⟩
    · intro c2 hc2
      exact absurd hc2 (by simp)
  · by_cases hstale : 600000 < nowMs - c.windowStart
    · have hfalse : (recordError s nowMs agentId taskId).2 = false := by
        simp [recordError, hfind, hstale]
      have hstate : (recordError s nowMs agentId taskId).1 =
          { s with errorCounters :=
              setEntry s.errorCounters (agentId ++ ":" ++ taskId) ⟨1, nowMs⟩ } := by
        simp [recordError, hfind, hstale]
      refine ⟨?_, ?_, ?_⟩
      · constructor
        · intro h
          rw [hfalse] at h
          exact absurd h (by simp)
        · rintro ⟨c2, hc2, hwin, _⟩
          obtain rfl : c = c2 := by simpa using hc2
          exact absurd hstale (by omega)
      · intro hnone
        exact absurd hnone (by simp)
      · intro c2 hc2 _
        refine ⟨hfalse, ?_⟩
        rw [hstate]
        exact findEntry_setEntry_self _ _ _
    · refine ⟨?_, ?_, ?_⟩
      · by_cases h5 : 5 ≤ c.count + 1
        · have htrue : (recordError s nowMs agentId taskId).2 = true := by
            simp [recordError, hfind, hstale, h5]
          rw [htrue]
          constructor
          · intro _
            exact ⟨c, rfl, by omega, by omega⟩
          · intro _
            rfl
        · by_cases h3 : 3 ≤ c.count + 1
          · have htrue : (recordError s nowMs agentId taskId).2 = true := by
              simp [recordError, hfind, hstale, h5, h3]
            rw [htrue]
            constructor
            · intro _
              exact ⟨c, rfl, by omega, by omega⟩
            · intro _
              rfl
          · have hfalse : (recordError s nowMs agentId taskId).2 = false := by
              simp [recordError, hfind, hstale, h5, h3]
            rw [hfalse]
            constructor
            · intro h
              exact absurd h (by simp)
            · rintro ⟨c2, hc2, hwin, hcnt⟩
              obtain rfl : c = c2 := by simpa using hc2
              exact absurd hcnt (by omega)
      · intro hnone
        exact absurd hnone (by simp)
      · intro c2 hc2 hst
        obtain rfl : c = c2 := by simpa using hc2
        exact absurd hst hstale

/-- Witness for `recordError_returns_true_iff` at a concrete input: on an
empty counter map a first error at 5 ms returns `false` and stores count 1
with window start 5. -/
theorem recordError_returns_true_iff_witness :
    (recordError initialState 5 "a2" "t2").2 = false ∧
    findEntry (recordError initialState 5 "a2" "t2").1.errorCounters
      ("a2" ++ ":" ++ "t2") = some ⟨1, 5⟩ :=
  (recordError_returns_true_iff initialState 5 "a2" "t2").2.1 rfl

/-- Four `recordError` calls for the same `(agent, task)` pair, all at time
0, on a fresh manager. -/
def errRun1 : LifecycleState × Bool := recordError initialState 0 "a1" "t1"

def errRun2 : LifecycleState × Bool := recordError errRun1.1 0 "a1" "t1"

def errRun3 : LifecycleState × Bool := recordError errRun2.1 0 "a1" "t1"

def errRun4 : LifecycleState × Bool := recordError errRun3.1 0 "a1" "t1"

/-- C1 counterexample: the 4th error inside one 10-minute window returns
`true` (the source returns `true` for every error count of at least 3), while
the claim requires the 4th error to return `false`. -/
theorem recordError_fourth_error_cex :
    errRun1.2 = false ∧ errRun2.2 = false ∧ errRun3.2 = true ∧
      errRun4.2 = true := by
  decide

theorem triggerSleep_preserves (s : LifecycleState) (a r : String)
    (d : Option String) :
    (triggerSleep s a r d).tasks = s.tasks ∧
    (triggerSleep s a r d).pending = s.pending ∧
    (triggerSleep s a r d).alertEvents = s.alertEvents := by
  unfold triggerSleep
  rcases getAgent s a with _ | ag
  · exact ⟨rfl, rfl, rfl⟩
  · by_cases hst :
      (ag.status == AgentStatus.sleeping || ag.status == AgentStatus.offline) = true
    · simp [hst]
    · have hst' :
          (ag.status == AgentStatus.sleeping || ag.status == AgentStatus.offline)
            = false := by simpa using hst
      simp [hst', publishBus, clearIdleMonitor, updateAgentRow]

/-- C2 (amended): for an existing task, `detectBlocked` marks the task blocked
with reason `\x5bsource\x5d reason` and feeds the Alert Engine one `blocked`
event built from the task — but it does **not** cancel pending `completed`
alerts for the pair: the engine's scheduled entries for
`(agentId, taskId, completed)` are exactly preserved (the source has no
cancellation call). -/
theorem detectBlocked_blocks_and_keeps_completed_alerts
    (s : LifecycleState) (nowMs : Nat) (agentId : String) (ctx : BlockContext)
    (task : AgentTask) (h : getAgentTask s ctx.taskId = some task) :
    (getAgentTask (detectBlocked s nowMs agentId ctx) ctx.taskId).map
        (fun t => (t.status, t.blocked_reason)) =
      some (TaskStatus.blocked,
        some ("[" ++ ctx.source.text ++ "] " ++ ctx.reason))
    ∧ (detectBlocked s nowMs agentId ctx).alertEvents =
        s.alertEvents ++
          [⟨Trigger.blocked, agentId, ctx.taskId, task.title, task.priority,
            some ctx.reason, blankToNone task.project_id⟩]
    ∧ (detectBlocked s nowMs agentId ctx).pending.filter
          (fun pa => pa.agentId == agentId && pa.taskId == ctx.taskId &&
            pa.trigger == Trigger.completed) =
        s.pending.filter
          (fun pa => pa.agentId == agentId && pa.taskId == ctx.taskId &&
            pa.trigger == Trigger.completed) := by
  have hfind : s.tasks.find? (fun t => t.id == ctx.taskId) = some task := h
  have hid : (task.id == ctx.taskId) = true := by
    simpa using List.find?_some hfind
  have hpres : ∀ t : AgentTask,
      ((if t.id == ctx.taskId then
          { t with status := TaskStatus.blocked,
                   blocked_reason :=
                     some ("[" ++ ctx.source.text ++ "] " ++ ctx.reason),
                   blocked_at := some (nowMs / 1000) }
        else t).id == ctx.taskId) = (t.id == ctx.taskId) := by
    intro t
    by_cases ht : (t.id == ctx.taskId) = true
    · simp [ht]
    · have ht' : (t.id == ctx.taskId) = false := by simpa using ht
      simp [ht']
  refine ⟨?_, ?_, ?_⟩
  · simp only [detectBlocked, getAgentTask, hfind, publishBus, processEvent,
      updateAgentRow, updateTaskRow]
    rw [find?_map_of_pred _ _ _ hpres, hfind]
    have hid2 : task.id = ctx.taskId := by simpa using hid
    simp [hid, hid2]
  · simp only [detectBlocked, getAgentTask, hfind, publishBus, processEvent,
      updateAgentRow, updateTaskRow]
  · simp only [detectBlocked, getAgentTask, hfind]
    have hp : ∀ pa : PendingAlert, pa.trigger = Trigger.blocked →
        (pa.agentId == agentId && pa.taskId == ctx.taskId &&
          pa.trigger == Trigger.completed) = false := by
      intro pa hpa
      simp [hpa]
    exact pending_filter_processEvent _ _ _ hp

/-- Witness for `detectBlocked_blocks_and_keeps_completed_alerts`: a concrete
state with an in-progress task and a pending batched completion alert. -/
def pendingCompletedState : LifecycleState :=
  { initialState with
    agents := [⟨"A", "Agent A", AgentStatus.working, some "T", some 100⟩],
    tasks := [⟨"T", "A", none, none, "Demo task", TaskStatus.in_progress,
      Priority.medium, none, none, some 50, none⟩],
    pending := [⟨"A", "T", Trigger.completed, "completed-batch"⟩] }

theorem detectBlocked_blocks_and_keeps_completed_alerts_witness :
    (getAgentTask
        (detectBlocked pendingCompletedState 200000 "A"
          ⟨BlockSource.question, "need access", "T"⟩) "T").map
      (fun t => (t.status, t.blocked_reason)) =
      some (TaskStatus.blocked, some "[question] need access") ∧
    (detectBlocked pendingCompletedState 200000 "A"
        ⟨BlockSource.question, "need access", "T"⟩).pending.filter
      (fun pa => pa.agentId == "A" && pa.taskId == "T" &&
        pa.trigger == Trigger.completed) =
      pendingCompletedState.pending.filter
        (fun pa => pa.agentId == "A" && pa.taskId == "T" &&
          pa.trigger == Trigger.completed) :=
  ⟨(detectBlocked_blocks_and_keeps_completed_alerts pendingCompletedState
      200000 "A" ⟨BlockSource.question, "need access", "T"⟩ _ rfl).1,
   (detectBlocked_blocks_and_keeps_completed_alerts pendingCompletedState
      200000 "A" ⟨BlockSource.question, "need access", "T"⟩ _ rfl).2.2⟩

/-- C2 counterexample: a `completed` alert for `("A","T")` is pending, the
task exists, yet after `detectBlocked` the entry is still scheduled — the
claimed cancellation never happens. -/
theorem detectBlocked_keeps_completed_alert_cex :
    (detectBlocked pendingCompletedState 200000 "A"
        ⟨BlockSource.question, "need access", "T"⟩).pending.filter
      (fun pa => pa.agentId == "A" && pa.taskId == "T" &&
        pa.trigger == Trigger.completed) =
      [⟨"A", "T", Trigger.completed, "completed-batch"⟩] := by
  decide

theorem completeTask_tasks (s : LifecycleState) (nowMs ch : Nat)
    (agentId taskId : String) (task2 : AgentTask)
    (hfind2 : s.tasks.find? (fun t => t.id == taskId) = some task2) :
    (completeTask s nowMs ch agentId taskId).tasks =
      s.tasks.map (fun t =>
        if t.id == taskId then
          { t with status := TaskStatus.completed,
                   completed_at := some (nowMs / 1000) }
        else t) := by
  simp only [completeTask, getAgentTask, hfind2, publishBus, processEvent,
    clearIdleMonitor]
  split
  · split
    · exact (triggerSleep_preserves _ _ _ _).1
    · rfl
  · rfl

/-- C3 (amended): terminal task statuses are **not** monotone.  `detectBlocked`
moves any existing task — a completed or cancelled one included — to
`blocked`, and `completeTask` moves any existing task — a cancelled one
included — to `completed`: no lifecycle operation guards terminal statuses. -/
theorem terminal_status_not_guarded (s : LifecycleState) (nowMs ch : Nat)
    (agentId taskId : String) (ctx : BlockContext) (task task2 : AgentTask)
    (h : getAgentTask s ctx.taskId = some task)
    (h2 : getAgentTask s taskId = some task2) :
    (getAgentTask (detectBlocked s nowMs agentId ctx) ctx.taskId).map (·.status) =
      some TaskStatus.blocked
    ∧ (getAgentTask (completeTask s nowMs ch agentId taskId) taskId).map
        (·.status) = some TaskStatus.completed := by
  constructor
  · have hpair :=
      (detectBlocked_blocks_and_keeps_completed_alerts s nowMs agentId ctx task h).1
    rcases hfound : getAgentTask (detectBlocked s nowMs agentId ctx) ctx.taskId
      with _ | t
    · rw [hfound] at hpair
      exact absurd hpair (by simp)
    · rw [hfound] at hpair
      have hts : t.status = TaskStatus.blocked := by
        have := congrArg (fun o => o.map Prod.fst) hpair
        simpa using this
      simp [hts]
  · have hfind2 : s.tasks.find? (fun t => t.id == taskId) = some task2 := h2
    have hid : (task2.id == taskId) = true := by
      simpa using List.find?_some hfind2
    have hid2 : task2.id = taskId := by simpa using hid
    have hpres : ∀ t : AgentTask,
        ((if t.id == taskId then
            { t with status := TaskStatus.completed,
                     completed_at := some (nowMs / 1000) }
          else t).id == taskId) = (t.id == taskId) := by
      intro t
      by_cases ht : (t.id == taskId) = true
      · simp [ht]
      · have ht' : (t.id == taskId) = false := by simpa using ht
        simp [ht']
    have htasks := completeTask_tasks s nowMs ch agentId taskId task2 hfind2
    simp only [getAgentTask, htasks]
    rw [find?_map_of_pred _ _ _ hpres, hfind2]
    simp [hid, hid2]

/-- Witness for `terminal_status_not_guarded` on a concrete state holding a
completed task and a cancelled task. -/
def terminalTasksState : LifecycleState :=
  { initialState with
    agents := [⟨"A", "Agent A", AgentStatus.idle, none, some 10⟩],
    tasks := [⟨"TC", "A", none, none, "Done already", TaskStatus.completed,
        Priority.high, none, none, some 1, some 2⟩,
      ⟨"TX", "A", none, none, "Was cancelled", TaskStatus.cancelled,
        Priority.low, none, none, some 1, some 3⟩] }

theorem terminal_status_not_guarded_witness :
    (getAgentTask
        (detectBlocked terminalTasksState 5000 "A"
          ⟨BlockSource.explicit, "reopened", "TC"⟩) "TC").map (·.status) =
      some TaskStatus.blocked ∧
    (getAgentTask (completeTask terminalTasksState 5000 12 "A" "TX") "TX").map
        (·.status) = some TaskStatus.completed :=
  terminal_status_not_guarded terminalTasksState 5000 12 "A" "TX"
    ⟨BlockSource.explicit, "reopened", "TC"⟩ _ _ rfl rfl

/-- The lifecycle-operation chain for the C3 counterexample: register an
agent, assign task `T1`, complete it, then a block report arrives for the
completed task. -/
def demoState0 : LifecycleState :=
  { initialState with agents := [⟨"A", "Agent A", AgentStatus.idle, none, none⟩] }

def demoState1 : LifecycleState :=
  match assignTask demoState0 1000 ⟨"A", "T1", none, none, "Fix the build",
    Priority.high⟩ with
  | Except.ok (s1, _) => s1
  | Except.error _ => demoState0

def demoState2 : LifecycleState := completeTask demoState1 2000 12 "A" "T1"

def demoState3 : LifecycleState :=
  detectBlocked demoState2 3000 "A" ⟨BlockSource.explicit, "stuck on review", "T1"⟩

/-- C3 counterexample: after `assignTask`, `completeTask` the task is in the
terminal status `completed`, yet the next `detectBlocked` call — e.g. the
`/block` endpoint — moves it back to `blocked`. -/
theorem terminal_status_reverts_cex :
    (getAgentTask demoState2 "T1").map (·.status) = some TaskStatus.completed ∧
    (getAgentTask demoState3 "T1").map (·.status) = some TaskStatus.blocked := by
  decide

/-- C5 (amended): `detectBlocked`, `completeTask`, `triggerSleep` and
`triggerWake` return the state unchanged — no throw — when the named task or
agent is missing, but `assignTask` **does** throw `Agent ... not found` when
the agent does not exist. -/
theorem missing_entity_behaviour (s : LifecycleState) (nowMs ch : Nat)
    (agentId taskId reasonText : String) (ctx : BlockContext)
    (d : Option String) (asg : TaskAssignment) :
    (getAgentTask s ctx.taskId = none → detectBlocked s nowMs agentId ctx = s)
    ∧ (getAgentTask s taskId = none → completeTask s nowMs ch agentId taskId = s)
    ∧ (getAgent s agentId = none → triggerSleep s agentId reasonText d = s)
    ∧ (getAgent s agentId = none → triggerWake s nowMs agentId reasonText = s)
    ∧ (getAgent s asg.agentId = none →
        assignTask s nowMs asg =
          Except.error ("Agent " ++ asg.agentId ++ " not found")) := by
  refine ⟨?_, ?_, ?_, ?_, ?_⟩
  · intro h
    simp [detectBlocked, h]
  · intro h
    simp [completeTask, h]
  · intro h
    simp [triggerSleep, h]
  · intro h
    simp [triggerWake, h]
  · intro h
    simp [assignTask, h]

/-- Witness for `missing_entity_behaviour` on the empty state, where no agent
and no task exists. -/
theorem missing_entity_behaviour_witness :
    detectBlocked initialState 0 "A" ⟨BlockSource.question, "why", "T"⟩ =
      initialState ∧
    assignTask initialState 0 ⟨"A", "T", none, none, "t", Priority.low⟩ =
      Except.error ("Agent " ++ "A" ++ " not found") :=
  ⟨(missing_entity_behaviour initialState 0 0 "A" "T" "r"
      ⟨BlockSource.question, "why", "T"⟩ none
      ⟨"A", "T", none, none, "t", Priority.low⟩).1 rfl,
   (missing_entity_behaviour initialState 0 0 "A" "T" "r"
      ⟨BlockSource.question, "why", "T"⟩ none
      ⟨"A", "T", none, none, "t", Priority.low⟩).2.2.2.2 rfl⟩

/-- C5 counterexample: `assignTask` called with an agent id for which no agent
exists raises `Agent ghost not found` instead of returning a sentinel. -/
theorem assignTask_missing_agent_cex :
    assignTask initialState 0 ⟨"ghost", "T9", none, none, "task", Priority.medium⟩ =
      Except.error "Agent ghost not found" := by
  rfl

theorem completeTask_pending (s : LifecycleState) (nowMs ch : Nat)
    (agentId taskId : String) (task : AgentTask)
    (hfind : s.tasks.find? (fun t => t.id == taskId) = some task) :
    (completeTask s nowMs ch agentId taskId).pending =
      s.pending ++ scheduledEntries defaultRules
        ⟨Trigger.completed, agentId, taskId, task.title, task.priority, none,
          blankToNone task.project_id⟩ := by
  simp only [completeTask, getAgentTask, hfind, publishBus, processEvent,
    clearIdleMonitor]
  split
  · split
    · rw [(triggerSleep_preserves _ _ _ _).2.1]
      rfl
    · rfl
  · rfl

theorem completeTask_alertEvents (s : LifecycleState) (nowMs ch : Nat)
    (agentId taskId : String) (task : AgentTask)
    (hfind : s.tasks.find? (fun t => t.id == taskId) = some task) :
    (completeTask s nowMs ch agentId taskId).alertEvents =
      s.alertEvents ++
        [⟨Trigger.completed, agentId, taskId, task.title, task.priority, none,
          blankToNone task.project_id⟩] := by
  simp only [completeTask, getAgentTask, hfind, publishBus, processEvent,
    clearIdleMonitor]
  split
  · split
    · rw [(triggerSleep_preserves _ _ _ _).2.2]
      rfl
    · rfl
  · rfl

/-- C4 (amended): for an existing task, `completeTask` cancels the agent's
idle timer and feeds the Alert Engine one `completed` event carrying the
task's priority — but it does **not** cancel pending `blocked` alerts for
`(agentId, taskId)`: the engine's scheduled `blocked` entries are exactly
preserved (the source has no cancellation call). -/
theorem completeTask_clears_timer_feeds_engine (s : LifecycleState)
    (nowMs ch : Nat) (agentId taskId : String) (task : AgentTask)
    (h : getAgentTask s taskId = some task) :
    agentId ∉ (completeTask s nowMs ch agentId taskId).idleTimers
    ∧ (completeTask s nowMs ch agentId taskId).alertEvents =
        s.alertEvents ++
          [⟨Trigger.completed, agentId, taskId, task.title, task.priority, none,
            blankToNone task.project_id⟩]
    ∧ (completeTask s nowMs ch agentId taskId).pending.filter
          (fun pa => pa.agentId == agentId && pa.taskId == taskId &&
            pa.trigger == Trigger.blocked) =
        s.pending.filter
          (fun pa => pa.agentId == agentId && pa.taskId == taskId &&
            pa.trigger == Trigger.blocked) := by
  have hfind : s.tasks.find? (fun t => t.id == taskId) = some task := h
  refine ⟨?_, completeTask_alertEvents s nowMs ch agentId taskId task hfind, ?_⟩
  · simp only [completeTask, getAgentTask, hfind, publishBus, processEvent,
      clearIdleMonitor]
    intro hmem
    simp [List.mem_filter] at hmem
  · rw [completeTask_pending s nowMs ch agentId taskId task hfind,
      List.filter_append]
    have hnil : (scheduledEntries defaultRules
        ⟨Trigger.completed, agentId, taskId, task.title, task.priority, none,
          blankToNone task.project_id⟩).filter
        (fun pa => pa.agentId == agentId && pa.taskId == taskId &&
          pa.trigger == Trigger.blocked) = [] := by
      rw [List.filter_eq_nil_iff]
      intro pa hpa
      have := scheduledEntries_trigger _ _ pa hpa
      simp [this]
    rw [hnil, List.append_nil]

/-- Witness state for C4: a working agent with an armed idle timer, an
in-progress medium task and a pending delayed `blocked` alert for it. -/
def pendingBlockedState : LifecycleState :=
  { initialState with
    agents := [⟨"A", "Agent A", AgentStatus.working, some "T", some 600⟩],
    tasks := [⟨"T", "A", none, none, "Slow task", TaskStatus.in_progress,
      Priority.medium, some "[idle] waiting", some 500, some 400, none⟩],
    idleTimers := ["A"],
    pending := [⟨"A", "T", Trigger.blocked, "blocked-medium"⟩] }

theorem completeTask_clears_timer_feeds_engine_witness :
    "A" ∉ (completeTask pendingBlockedState 700000000 12 "A" "T").idleTimers ∧
    (completeTask pendingBlockedState 700000000 12 "A" "T").alertEvents =
      pendingBlockedState.alertEvents ++
        [⟨Trigger.completed, "A", "T", "Slow task", Priority.medium, none,
          none⟩] :=
  ⟨(completeTask_clears_timer_feeds_engine pendingBlockedState 700000000 12
      "A" "T" _ rfl).1,
   (completeTask_clears_timer_feeds_engine pendingBlockedState 700000000 12
      "A" "T" _ rfl).2.1⟩

/-- C4 counterexample: a delayed `blocked` alert for `("A","T")` is pending,
the task exists, yet after `completeTask` the entry is still scheduled — the
claimed cancellation never happens. -/
theorem completeTask_keeps_blocked_alert_cex :
    (completeTask pendingBlockedState 700000000 12 "A" "T").pending.filter
      (fun pa => pa.agentId == "A" && pa.taskId == "T" &&
        pa.trigger == Trigger.blocked) =
      [⟨"A", "T", Trigger.blocked, "blocked-medium"⟩] := by
  decide

/-- The sleep window exactly as the claim words it: the hour lies in
`\x5bstartHour, endHour)`, the interval wrapping midnight whenever
`startHour ≥ endHour`. -/
def hourInClaimedWindow (startHour endHour h : Nat) : Bool :=
  if endHour ≤ startHour then
    decide (startHour ≤ h) || decide (h < endHour)
  else
    decide (startHour ≤ h) && decide (h < endHour)

/-- C6: for every enabled schedule, `isInSleepWindow` answers `true` exactly
when the current hour lies in the window `\x5bstartHour, endHour)`, wrapping
midnight whenever `startHour ≥ endHour`; with start 22 and end 6 the window
contains hour 0 and not hour 6. -/
theorem isInSleepWindow_matches_claim (sch : SleepSchedule) (h : Nat)
    (henabled : sch.enabled = true) :
    (isInSleepWindow sch h =
      hourInClaimedWindow sch.startHour sch.endHour h)
    ∧ isInSleepWindow ⟨22, 6, sch.timezone, true⟩ 0 = true
    ∧ isInSleepWindow ⟨22, 6, sch.timezone, true⟩ 6 = false := by
  refine ⟨?_, by simp [isInSleepWindow], by simp [isInSleepWindow]⟩
  by_cases hlt : sch.startHour < sch.endHour
  · have hle : ¬ sch.endHour ≤ sch.startHour := by omega
    simp [isInSleepWindow, hourInClaimedWindow, henabled, hlt, hle]
  · have hle : sch.endHour ≤ sch.startHour := by omega
    simp [isInSleepWindow, hourInClaimedWindow, henabled, hlt, hle]

/-- Witness for `isInSleepWindow_matches_claim` at the wrap-around schedule
`{start 22, end 6, enabled}` and hour 3. -/
theorem isInSleepWindow_matches_claim_witness :
    (isInSleepWindow ⟨22, 6, "UTC", true⟩ 3 =
      hourInClaimedWindow 22 6 3)
    ∧ isInSleepWindow ⟨22, 6, "UTC", true⟩ 0 = true
    ∧ isInSleepWindow ⟨22, 6, "UTC", true⟩ 6 = false :=
  isInSleepWindow_matches_claim ⟨22, 6, "UTC", true⟩ 3 rfl

/-- C10: `setSleepSchedule` overwrites exactly the fields present in the
patch and keeps every absent field, and `getSleepSchedule` returns a freshly
constructed spread copy that is value-equal to the stored schedule — reading
after any further computation on the copy still yields the stored value. -/
theorem setSleepSchedule_frame (s : LifecycleState) (p : SleepSchedulePatch) :
    ((setSleepSchedule s p).sleepSchedule.startHour =
        match p.startHour with
        | some v => v
        | none => s.sleepSchedule.startHour)
    ∧ ((setSleepSchedule s p).sleepSchedule.endHour =
        match p.endHour with
        | some v => v
        | none => s.sleepSchedule.endHour)
    ∧ ((setSleepSchedule s p).sleepSchedule.timezone =
        match p.timezone with
        | some v => v
        | none => s.sleepSchedule.timezone)
    ∧ ((setSleepSchedule s p).sleepSchedule.enabled =
        match p.enabled with
        | some v => v
        | none => s.sleepSchedule.enabled)
    ∧ getSleepSchedule s = s.sleepSchedule
    ∧ (setSleepSchedule s p).agents = s.agents
    ∧ (setSleepSchedule s p).tasks = s.tasks := by
  refine ⟨?_, ?_, ?_, ?_, ?_, rfl, rfl⟩
  · rcases hp : p.startHour with _ | v <;>
      simp [setSleepSchedule, mergeSleepSchedule, hp]
  · rcases hp : p.endHour with _ | v <;>
      simp [setSleepSchedule, mergeSleepSchedule, hp]
  · rcases hp : p.timezone with _ | v <;>
      simp [setSleepSchedule, mergeSleepSchedule, hp]
  · rcases hp : p.enabled with _ | v <;>
      simp [setSleepSchedule, mergeSleepSchedule, hp]
  · cases hs : s.sleepSchedule
    simp [getSleepSchedule, copySleepSchedule, hs]

/-- C8: when the idle timer fires for a working agent with a non-zero
heartbeat and a current in-progress task, `detectBlocked` with source `idle`
runs exactly when the heartbeat age `now − last_heartbeat` is strictly above
300 s: at age exactly 300 (or below) the task row is untouched, above 300 it
is marked blocked with the `\x5bidle\x5d` reason. -/
theorem checkIdle_threshold (s : LifecycleState) (nowMs : Nat)
    (agentId : String) (ag : Agent) (hb : Nat) (tid : String) (tk : AgentTask)
    (hag : getAgent s agentId = some ag)
    (hwork : ag.status = AgentStatus.working)
    (hhb : ag.last_heartbeat = some hb) (hhb0 : hb ≠ 0)
    (htid : ag.current_task_id = some tid) (htid0 : tid ≠ "")
    (htk : getAgentTask s tid = some tk)
    (hprog : tk.status = TaskStatus.in_progress) :
    (300 < nowMs / 1000 - hb →
      (getAgentTask (checkIdle s nowMs agentId) tid).map
          (fun t => (t.status, t.blocked_reason)) =
        some (TaskStatus.blocked,
          some ("[" ++ BlockSource.idle.text ++ "] " ++
            ("Agent idle for " ++ toString ((nowMs / 1000 - hb) / 60) ++
              " minutes with in_progress task"))))
    ∧ (nowMs / 1000 - hb ≤ 300 →
        getAgentTask (checkIdle s nowMs agentId) tid = some tk) := by
  have hworkb : (ag.status == AgentStatus.working) = true := by simp [hwork]
  have hb0b : (hb == 0) = false := by simp [hhb0]
  have htidb : (tid == "") = false := by simp [htid0]
  have hageval : heartbeatAge ag.last_heartbeat (nowMs / 1000) =
      some (nowMs / 1000 - hb) := by
    simp [heartbeatAge, hhb, hb0b]
  constructor
  · intro hfire
    have hfireb :
        ageExceeds (heartbeatAge ag.last_heartbeat (nowMs / 1000)) 300 = true := by
      simp [hageval, ageExceeds, hfire]
    have hmain : getAgentTask (checkIdle s nowMs agentId) tid =
        getAgentTask (detectBlocked s nowMs agentId
          ⟨BlockSource.idle,
           "Agent idle for " ++
             ageMinutesText (heartbeatAge ag.last_heartbeat (nowMs / 1000)) ++
             " minutes with in_progress task", tid⟩) tid := by
      simp only [checkIdle, hag, hworkb, Bool.not_true, Bool.false_eq_true,
        if_false, htid, blankToNone, htidb, hfireb, if_true]
      split
      · split
        · rfl
        · rfl
      · rfl
    rw [hmain]
    have := (detectBlocked_blocks_and_keeps_completed_alerts s nowMs agentId
      ⟨BlockSource.idle,
       "Agent idle for " ++
         ageMinutesText (heartbeatAge ag.last_heartbeat (nowMs / 1000)) ++
         " minutes with in_progress task", tid⟩ tk htk).1
    rw [this]
    rw [hageval]
    rfl
  · intro hcalm
    have hfireb :
        ageExceeds (heartbeatAge ag.last_heartbeat (nowMs / 1000)) 300 = false := by
      simp [hageval, ageExceeds]
      omega
    have hfireb2 :
        ageExceeds (heartbeatAge ag.last_heartbeat (nowMs / 1000)) 1800 = false := by
      simp [hageval, ageExceeds]
      omega
    have hmain : getAgentTask (checkIdle s nowMs agentId) tid =
        getAgentTask s tid := by
      simp only [checkIdle, hag, hworkb, Bool.not_true, Bool.false_eq_true,
        if_false, htid, blankToNone, htidb, hfireb, hfireb2, Bool.false_and,
        if_true]
    rw [hmain, htk]

/-- Witness state for C8: a working agent whose heartbeat is 301 s old at
time 1 000 000 s (and exactly 300 s old at time 999 999 s). -/
def idleAgentState : LifecycleState :=
  { initialState with
    agents := [⟨"A", "Agent A", AgentStatus.working, some "T", some 999699⟩],
    tasks := [⟨"T", "A", none, none, "Long task", TaskStatus.in_progress,
      Priority.high, none, none, some 999000, none⟩] }

theorem checkIdle_threshold_witness :
    (getAgentTask (checkIdle idleAgentState 1000000000 "A") "T").map
        (fun t => (t.status, t.blocked_reason)) =
      some (TaskStatus.blocked,
        some ("[" ++ BlockSource.idle.text ++ "] " ++
          ("Agent idle for " ++ toString ((1000000000 / 1000 - 999699) / 60) ++
            " minutes with in_progress task"))) ∧
    getAgentTask (checkIdle idleAgentState 999999000 "A") "T" =
      some ⟨"T", "A", none, none, "Long task", TaskStatus.in_progress,
        Priority.high, none, none, some 999000, none⟩ :=
  ⟨(checkIdle_threshold idleAgentState 1000000000 "A" _ 999699 "T" _ rfl rfl
      rfl (by decide) rfl (by decide) rfl rfl).1 (by decide),
   (checkIdle_threshold idleAgentState 999999000 "A" _ 999699 "T" _ rfl rfl
      rfl (by decide) rfl (by decide) rfl rfl).2 (by decide)⟩

theorem find?_append_single_neg {α : Type} (l : List α) (p : α → Bool) (x : α)
    (hx : p x = false) : (l ++ [x]).find? p = l.find? p := by
  induction l with
  | nil => simp [hx]
  | cons y l ih =>
    by_cases hy : p y = true
    · simp [List.find?_cons_of_pos _ hy]
    · have hy' : ¬ p y = true := hy
      simp only [List.cons_append, List.find?_cons_of_neg _ hy', ih]

theorem find?_append_single_pos {α : Type} (l : List α) (p : α → Bool) (x : α)
    (hl : l.find? p = none) (hx : p x = true) : (l ++ [x]).find? p = some x := by
  induction l with
  | nil => simp [hx]
  | cons y l ih =>
    rcases hy : p y with _ | _
    · have hy2 : ¬ p y = true := by simp [hy]
      rw [List.find?_cons_of_neg _ hy2] at hl
      rw [List.cons_append, List.find?_cons_of_neg _ hy2]
      exact ih hl
    · rw [List.find?_cons_of_pos _ hy] at hl
      exact absurd hl (by simp)

theorem assignTask_ok_parts (s : LifecycleState) (nowMs : Nat)
    (asg : TaskAssignment) (s1 : LifecycleState) (t : AgentTask)
    (h : assignTask s nowMs asg = Except.ok (s1, t)) :
    s1.tasks = s.tasks ++ [t] ∧ t.id = asg.taskId ∧
      t.priority = asg.priority ∧ getAgentTask s asg.taskId = none := by
  unfold assignTask at h
  rcases hag : getAgent s asg.agentId with _ | ag
  · rw [hag] at h
    exact absurd h (by simp)
  · rw [hag] at h
    rcases hconf : getAgentTask s asg.taskId with _ | old
    · rw [hconf] at h
      simp only [Option.isSome_none, Bool.false_eq_true, reduceIte] at h
      have hpair := Except.ok.inj h
      injection hpair with h1 h2
      subst h1
      subst h2
      refine ⟨?_, rfl, rfl, rfl⟩
      rcases hbl : blankToNone asg.linearIssueId with _ | iid <;>
        simp [hbl, publishBus, linkAgentToIssue, startIdleMonitor,
          clearIdleMonitor, updateAgentRow]
    · rw [hconf] at h
      simp only [Option.isSome_some, reduceIte] at h
      exact absurd h (by simp)

theorem maybeAutoAssignIssue_cases (s : LifecycleState) (nowMs : Nat)
    (issueId : String) :
    maybeAutoAssignIssue s nowMs issueId = s ∨
    ∃ (issue : LinearIssue) (matched : Agent) (s1 : LifecycleState)
      (t : AgentTask), getLinearIssue s issueId = some issue ∧
      assignTask s nowMs
        { agentId := matched.id, taskId := "linear_" ++ issue.id,
          linearIssueId := some issue.id,
          projectId := blankToNone issue.project_id, title := issue.title,
          priority := mapLinearPriority issue.priority } = Except.ok (s1, t) ∧
      maybeAutoAssignIssue s nowMs issueId = s1 := by
  rcases hiss : getLinearIssue s issueId with _ | issue
  · left
    simp [maybeAutoAssignIssue, hiss]
  · simp only [maybeAutoAssignIssue, hiss]
    split
    · exact Or.inl rfl
    · split
      · exact Or.inl rfl
      · split
        · exact Or.inl rfl
        · split
          · exact Or.inl rfl
          · rename_i matched hmatch
            split
            · rename_i sres tres heq
              exact Or.inr ⟨issue, matched, sres, tres, rfl, heq, rfl⟩
            · exact Or.inl rfl

/-- C9: `maybeAutoAssignIssue` returns the state untouched whenever the
mirrored issue already carries a (non-blank) `agent_task_id` — so a replayed
webhook cannot assign twice; the only task id it can ever create is
`linear_` + issue id; and the priority handed to `assignTask` follows the
mapping high for Linear priority ≥ 3, medium for priority = 2, low
otherwise. -/
theorem maybeAutoAssign_noop_and_mapping (s : LifecycleState) (nowMs : Nat)
    (issueId : String) :
    (∀ issue tid, getLinearIssue s issueId = some issue →
      issue.agent_task_id = some tid → tid ≠ "" →
      maybeAutoAssignIssue s nowMs issueId = s)
    ∧ (∀ p : Int, mapLinearPriority p =
        if 3 ≤ p then Priority.high
        else if p = 2 then Priority.medium
        else Priority.low)
    ∧ (∀ tid, tid ≠ "linear_" ++ issueId →
        getAgentTask (maybeAutoAssignIssue s nowMs issueId) tid =
          getAgentTask s tid)
    ∧ (maybeAutoAssignIssue s nowMs issueId = s ∨
        ∃ issue task, getLinearIssue s issueId = some issue ∧
          getAgentTask (maybeAutoAssignIssue s nowMs issueId)
              ("linear_" ++ issueId) = some task ∧
          task.id = "linear_" ++ issueId ∧
          task.priority = mapLinearPriority issue.priority) := by
  refine ⟨?_, ?_, ?_, ?_⟩
  · intro issue tid hiss htid htid0
    have htidb : (tid == "") = false := by simp [htid0]
    simp [maybeAutoAssignIssue, hiss, htid, blankToNone, htidb]
  · intro p
    by_cases h3 : 3 ≤ p
    · simp [mapLinearPriority, h3]
    · by_cases h2 : 2 ≤ p
      · have hp2 : p = 2 := by omega
        simp [mapLinearPriority, h3, h2, hp2]
      · have hp2 : p ≠ 2 := by omega
        simp [mapLinearPriority, h3, h2, hp2]
  · intro tid htid
    rcases maybeAutoAssignIssue_cases s nowMs issueId with heq |
      ⟨issue, matched, s1, t, hiss, hok, heq⟩
    · rw [heq]
    · rw [heq]
      obtain ⟨htasks, htid2, _, _⟩ := assignTask_ok_parts s nowMs _ s1 t hok
      have hfindi : s.issues.find? (fun i => i.id == issueId) = some issue := hiss
      have hissid : issue.id = issueId := by
        simpa using List.find?_some hfindi
      have hne : (t.id == tid) = false := by
        have hteq : t.id = "linear_" ++ issueId := by rw [htid2, hissid]
        simp only [hteq, beq_eq_false_iff_ne, ne_eq]
        exact fun hcontra => htid hcontra.symm
      show getAgentTask s1 tid = getAgentTask s tid
      simp only [getAgentTask, htasks]
      exact find?_append_single_neg _ _ _ hne
  · rcases maybeAutoAssignIssue_cases s nowMs issueId with heq |
      ⟨issue, matched, s1, t, hiss, hok, heq⟩
    · exact Or.inl heq
    · right
      obtain ⟨htasks, htid2, hpri, hnone⟩ := assignTask_ok_parts s nowMs _ s1 t hok
      have hfindi : s.issues.find? (fun i => i.id == issueId) = some issue := hiss
      have hissid : issue.id = issueId := by
        simpa using List.find?_some hfindi
      refine ⟨issue, t, hiss, ?_, ?_, ?_⟩
      · rw [heq]
        simp only [getAgentTask, htasks]
        apply find?_append_single_pos
        · have h2 : getAgentTask s ("linear_" ++ issueId) = none := by
            rw [← hissid]
            exact hnone
          exact h2
        · have hteq : t.id = "linear_" ++ issueId := by rw [htid2, hissid]
          simp [hteq]
      · rw [htid2, hissid]
      · exact hpri

/-- Witness state for C9: an issue already linked to its auto-created task. -/
def linkedIssueState : LifecycleState :=
  { initialState with
    issues := [⟨"I1", none, "Linked issue", 3, some "In Progress",
      some "started", some "Agent Match", some "linear_I1"⟩] }

theorem maybeAutoAssign_noop_and_mapping_witness :
    maybeAutoAssignIssue linkedIssueState 0 "I1" = linkedIssueState ∧
    mapLinearPriority 2 =
      (if (3 : Int) ≤ 2 then Priority.high
       else if (2 : Int) = 2 then Priority.medium
       else Priority.low) :=
  ⟨(maybeAutoAssign_noop_and_mapping linkedIssueState 0 "I1").1 _ "linear_I1"
      rfl rfl (by decide),
   (maybeAutoAssign_noop_and_mapping linkedIssueState 0 "I1").2.1 2⟩

/-- The push branch of `shouldSendMessage` as a transition on one agent's
throttle entry: the updated entry and the verdict. -/
def pushStep (th : Option MessageThrottle) (nowMs : Nat) :
    Option MessageThrottle × Bool :=
  match th with
  | none => (some ⟨nowMs, 1⟩, true)
  | some th =>
    if 3600000 < nowMs - th.lastSent then (some ⟨nowMs, 1⟩, true)
    else if 3 ≤ th.count then (some th, false)
    else (some ⟨nowMs, th.count + 1⟩, true)

/-- The times at which a sequence of push-channel `shouldSendMessage` calls
for one agent is allowed, threading the manager state through the calls. -/
def pushRunAllowed (s : LifecycleState) (agentId : String) :
    List Nat → List Nat
  | [] => []
  | t :: ts =>
    let r := shouldSendMessage s t agentId MessageType.push
    if r.2 then t :: pushRunAllowed r.1 agentId ts
    else pushRunAllowed r.1 agentId ts

/-- The allowed times of the same run on a bare throttle entry. -/
def stepAllowed (th : Option MessageThrottle) : List Nat → List Nat
  | [] => []
  | t :: ts =>
    let r := pushStep th t
    if r.2 then t :: stepAllowed r.1 ts else stepAllowed r.1 ts

/-- Membership of a time in the closed window `\x5bx, x + w\x5d`. -/
def inWindow (x w u : Nat) : Bool := decide (x ≤ u) && decide (u ≤ x + w)

theorem shouldSendMessage_push_step (s : LifecycleState) (nowMs : Nat)
    (agentId : String) :
    (shouldSendMessage s nowMs agentId MessageType.push).2 =
      (pushStep (findEntry s.messageThrottles agentId) nowMs).2 ∧
    findEntry
        (shouldSendMessage s nowMs agentId MessageType.push).1.messageThrottles
        agentId =
      (pushStep (findEntry s.messageThrottles agentId) nowMs).1 := by
  rcases hth : findEntry s.messageThrottles agentId with _ | th
  · exact ⟨by simp [shouldSendMessage, pushStep, hth],
      by simp [shouldSendMessage, pushStep, hth, findEntry_setEntry_self]⟩
  · by_cases hfresh : 3600000 < nowMs - th.lastSent
    · exact ⟨by simp [shouldSendMessage, pushStep, hth, hfresh],
        by simp [shouldSendMessage, pushStep, hth, hfresh,
          findEntry_setEntry_self]⟩
    · by_cases hcap : 3 ≤ th.count
      · exact ⟨by simp [shouldSendMessage, pushStep, hth, hfresh, hcap],
          by simp [shouldSendMessage, pushStep, hth, hfresh, hcap]⟩
      · exact ⟨by simp [shouldSendMessage, pushStep, hth, hfresh, hcap],
          by simp [shouldSendMessage, pushStep, hth, hfresh, hcap,
            findEntry_setEntry_self]⟩

theorem pushRunAllowed_eq_stepAllowed (ts : List Nat) :
    ∀ (s : LifecycleState) (agentId : String),
      pushRunAllowed s agentId ts =
        stepAllowed (findEntry s.messageThrottles agentId) ts := by
  induction ts with
  | nil =>
    intro s a
    rfl
  | cons t ts ih =>
    intro s a
    have hstep := shouldSendMessage_push_step s t a
    have hrest :
        pushRunAllowed (shouldSendMessage s t a MessageType.push).1 a ts =
          stepAllowed (pushStep (findEntry s.messageThrottles a) t).1 ts := by
      rw [ih, hstep.2]
    rcases hb : (shouldSendMessage s t a MessageType.push).2 with _ | _
    · have hb2 : (pushStep (findEntry s.messageThrottles a) t).2 = false := by
        rw [← hstep.1]
        exact hb
      simp only [pushRunAllowed, stepAllowed, hb, hb2, Bool.false_eq_true,
        reduceIte]
      exact hrest
    · have hb2 : (pushStep (findEntry s.messageThrottles a) t).2 = true := by
        rw [← hstep.1]
        exact hb
      simp only [pushRunAllowed, stepAllowed, hb, hb2, reduceIte]
      rw [hrest]

theorem stepAllowed_subset (ts : List Nat) :
    ∀ (th : Option MessageThrottle), ∀ u ∈ stepAllowed th ts, u ∈ ts := by
  induction ts with
  | nil =>
    intro th u hu
    simp [stepAllowed] at hu
  | cons t ts ih =>
    intro th u hu
    simp only [stepAllowed] at hu
    split at hu
    · rcases List.mem_cons.mp hu with rfl | hu2
      · exact List.mem_cons_self _ _
      · exact List.mem_cons_of_mem _ (ih _ u hu2)
    · exact List.mem_cons_of_mem _ (ih _ u hu)

theorem filter_inWindow_nil (x w : Nat) (l : List Nat)
    (hbig : ∀ u ∈ l, x + w < u) : l.filter (inWindow x w) = [] := by
  rw [List.filter_eq_nil_iff]
  intro u hu
  have hxu := hbig u hu
  simp [inWindow]
  omega

theorem stepAllowed_window_bound (ts : List Nat) :
    ∀ (ls c x : Nat), ts.Pairwise (· ≤ ·) → (∀ u ∈ ts, ls ≤ u) →
      ((stepAllowed (some ⟨ls, c⟩) ts).filter (inWindow x 3600000)).length ≤ 3 ∧
      (x ≤ ls →
        ((stepAllowed (some ⟨ls, c⟩) ts).filter (inWindow x 3600000)).length ≤
          3 - c) := by
  induction ts with
  | nil =>
    intro ls c x _ _
    simp [stepAllowed]
  | cons t ts ih =>
    intro ls c x hpw hge
    have hget : ls ≤ t := hge t (List.mem_cons_self _ _)
    have hpw2 : ts.Pairwise (· ≤ ·) := hpw.of_cons
    have hgt : ∀ u ∈ ts, t ≤ u := (List.pairwise_cons.mp hpw).1
    by_cases hreset : 3600000 < t - ls
    · have hstep : stepAllowed (some ⟨ls, c⟩) (t :: ts) =
          t :: stepAllowed (some ⟨t, 1⟩) ts := by
        simp [stepAllowed, pushStep, hreset]
      rw [hstep]
      have hih := ih t 1 x hpw2 hgt
      by_cases hw : inWindow x 3600000 t = true
      · have hxt : x ≤ t ∧ t ≤ x + 3600000 := by
          simpa [inWindow] using hw
        have hrest := hih.2 hxt.1
        constructor
        · simp only [List.filter_cons, hw, reduceIte, List.length_cons]
          omega
        · intro hxls
          exact absurd hxt.2 (by omega)
      · constructor
        · simp only [List.filter_cons, hw, Bool.false_eq_true, reduceIte]
          exact hih.1
        · intro hxls
          have hnil : (stepAllowed (some ⟨t, 1⟩) ts).filter
              (inWindow x 3600000) = [] := by
            apply filter_inWindow_nil
            intro u hu
            have hut : t ≤ u := hgt u (stepAllowed_subset ts _ u hu)
            omega
          simp only [List.filter_cons, hw, Bool.false_eq_true, reduceIte, hnil]
          simp
    · by_cases hcap : 3 ≤ c
      · have hstep : stepAllowed (some ⟨ls, c⟩) (t :: ts) =
            stepAllowed (some ⟨ls, c⟩) ts := by
          simp [stepAllowed, pushStep, hreset, hcap]
        rw [hstep]
        exact ih ls c x hpw2 (fun u hu => hge u (List.mem_cons_of_mem _ hu))
      · have hstep : stepAllowed (some ⟨ls, c⟩) (t :: ts) =
            t :: stepAllowed (some ⟨t, c + 1⟩) ts := by
          simp [stepAllowed, pushStep, hreset, hcap]
        rw [hstep]
        have hih := ih t (c + 1) x hpw2 hgt
        by_cases hw : inWindow x 3600000 t = true
        · have hxt : x ≤ t ∧ t ≤ x + 3600000 := by
            simpa [inWindow] using hw
          have hrest := hih.2 hxt.1
          constructor
          · simp only [List.filter_cons, hw, reduceIte, List.length_cons]
            omega
          · intro hxls
            simp only [List.filter_cons, hw, reduceIte, List.length_cons]
            omega
        · constructor
          · simp only [List.filter_cons, hw, Bool.false_eq_true, reduceIte]
            exact hih.1
          · intro hxls
            have hxt : x ≤ t := le_trans hxls hget
            have htbig : x + 3600000 < t := by
              have hw2 : ¬ (x ≤ t ∧ t ≤ x + 3600000) := by
                simpa [inWindow] using hw
              omega
            have hnil : (stepAllowed (some ⟨t, c + 1⟩) ts).filter
                (inWindow x 3600000) = [] := by
              apply filter_inWindow_nil
              intro u hu
              have hut : t ≤ u := hgt u (stepAllowed_subset ts _ u hu)
              omega
            simp only [List.filter_cons, hw, Bool.false_eq_true, reduceIte,
              hnil]
            simp

theorem stepAllowed_none_window_bound (ts : List Nat) (x : Nat)
    (hpw : ts.Pairwise (· ≤ ·)) :
    ((stepAllowed none ts).filter (inWindow x 3600000)).length ≤ 3 := by
  cases ts with
  | nil => simp [stepAllowed]
  | cons t ts =>
    have hstep : stepAllowed none (t :: ts) =
        t :: stepAllowed (some ⟨t, 1⟩) ts := by
      simp [stepAllowed, pushStep]
    rw [hstep]
    have hgt : ∀ u ∈ ts, t ≤ u := (List.pairwise_cons.mp hpw).1
    have hih := stepAllowed_window_bound ts t 1 x hpw.of_cons hgt
    by_cases hw : inWindow x 3600000 t = true
    · have hxt : x ≤ t ∧ t ≤ x + 3600000 := by simpa [inWindow] using hw
      have hrest := hih.2 hxt.1
      simp only [List.filter_cons, hw, reduceIte, List.length_cons]
      omega
    · simp only [List.filter_cons, hw, Bool.false_eq_true, reduceIte]
      exact hih.1

/-- C7: `shouldSendMessage` always allows `in_app` without touching any state;
for `push` every call behaves as the throttle transition `pushStep` — reset
and allow on a missing or stale (> 3 600 000 ms) entry, deny at count ≥ 3,
increment and allow otherwise; consequently, along any time-ordered call
sequence starting with no throttle entry for the agent, at most 3 push sends
are allowed inside any window `\x5bx, x + 3 600 000 ms\x5d`. -/
theorem shouldSendMessage_throttle (ts : List Nat) (x : Nat)
    (hts : ts.Pairwise (· ≤ ·)) :
    (∀ (s : LifecycleState) (nowMs : Nat) (agentId : String),
      shouldSendMessage s nowMs agentId MessageType.in_app = (s, true))
    ∧ (∀ (s : LifecycleState) (nowMs : Nat) (agentId : String),
        (shouldSendMessage s nowMs agentId MessageType.push).2 =
          (pushStep (findEntry s.messageThrottles agentId) nowMs).2 ∧
        findEntry (shouldSendMessage s nowMs agentId
            MessageType.push).1.messageThrottles agentId =
          (pushStep (findEntry s.messageThrottles agentId) nowMs).1)
    ∧ (∀ (s : LifecycleState) (agentId : String),
        findEntry s.messageThrottles agentId = none →
        ((pushRunAllowed s agentId ts).filter (inWindow x 3600000)).length ≤ 3) := by
  refine ⟨fun s n a => rfl, fun s n a => shouldSendMessage_push_step s n a, ?_⟩
  intro s a hnone
  rw [pushRunAllowed_eq_stepAllowed ts s a, hnone]
  exact stepAllowed_none_window_bound ts x hts

/-- Witness for `shouldSendMessage_throttle`: four push calls in the same
millisecond on a fresh manager; at most 3 are allowed in the window
`\x5b0, 3600000\x5d`. -/
theorem shouldSendMessage_throttle_witness :
    ([0, 0, 0, 0] : List Nat).Pairwise (· ≤ ·) ∧
    ((pushRunAllowed initialState "A" [0, 0, 0, 0]).filter
      (inWindow 0 3600000)).length ≤ 3 :=
  ⟨by decide,
   (shouldSendMessage_throttle [0, 0, 0, 0] 0 (by decide)).2.2 initialState "A"
     rfl⟩
